import Mathlib

/-!
A verification development for the axa_challenge bike-crash insurance pipeline.

The Python pipeline is shallowly embedded: pandas dataframes become lists of
typed rows, float arithmetic becomes exact rational arithmetic (ℚ), machine
integers become ℕ/ℤ, and external library calls (pyproj coordinate
transformation, pd.to_datetime parsing, the pickled sklearn model) become
explicit function parameters.  Fallible operations return Option/Except.

Conventions used throughout:
* a pandas column that may contain NaN is an Option-valued field; NaN is none;
* Python floor division // on nonnegative floats is Int.floor of the ℚ quotient;
* pandas groupby enumerates groups here in first-occurrence order instead of
  sorted key order; no statement below depends on the order of groups.
-/

/- ### Generic list helpers (pandas Series.min / Series.max on a column) -/

/-- Minimum of a list of rationals; pandas Series.min.  The value on the empty
list is irrelevant (pandas yields NaN there); all statements below assume a
non-empty column. -/
def qMin : List ℚ → ℚ
  | [] => 0
  | x :: xs => xs.foldl min x

/-- Maximum of a list of rationals; pandas Series.max. -/
def qMax : List ℚ → ℚ
  | [] => 0
  | x :: xs => xs.foldl max x

/- ### Grouping helpers (pandas groupby / drop_duplicates keep first occurrence) -/

/-- First occurrence of each distinct element of a list, in order: the keys of
a pandas groupby (pandas additionally sorts them; no statement below depends
on the order). -/
def groupKeys {α : Type} [BEq α] : List α → List α
  | [] => []
  | a :: as => a :: groupKeys (as.filter fun b => !(b == a))
termination_by l => l.length
decreasing_by simpa using Nat.lt_succ_of_le (List.length_filter_le _ _)

/- ### BikeCrashDataset.spatio_temporal_rasterization (src/datasets/bike_crash_dataset.py) -/

/-- A row of the aligned bike-crash dataframe, as produced by
citibike_alignment: it carries x_centered, y_centered and 'CRASH TIME'.  The
'CRASH TIME' strings have the form 'H:MM'; the string is modelled by its two
numeric fields, i.e. with the split at ':' that time_to_minutes performs
already applied. -/
structure AlignedCrashRow where
  x_centered : ℚ
  y_centered : ℚ
  timeHour : ℕ
  timeMinute : ℕ
  deriving DecidableEq, Repr

/-- Inner helper time_to_minutes of spatio_temporal_rasterization:
hour * 60 + minute. -/
def time_to_minutes (r : AlignedCrashRow) : ℕ := r.timeHour * 60 + r.timeMinute

/-- One spatial bin index of spatio_temporal_rasterization:
(v - min_v) // bin_size with bin_size = (max_v - min_v) / bins.
Python floor division on floats is Int.floor of the exact quotient. -/
def spatialBin (v minV maxV : ℚ) (bins : ℕ) : ℤ :=
  Int.floor ((v - minV) / ((maxV - minV) / (bins : ℚ)))

/-- The (x_bin, y_bin, time_bin) key assigned to a crash row by
spatio_temporal_rasterization. -/
def rasterKey (minX maxX minY maxY : ℚ) (bins timeBinSize : ℕ)
    (r : AlignedCrashRow) : ℤ × ℤ × ℕ :=
  (spatialBin r.x_centered minX maxX bins,
   spatialBin r.y_centered minY maxY bins,
   time_to_minutes r / timeBinSize)

/-- The list of groupby keys of all crash rows, with the per-axis minima and
maxima taken over the dataset exactly as in spatio_temporal_rasterization. -/
def rasterKeys (rows : List AlignedCrashRow) (bins timeBinSize : ℕ) : List (ℤ × ℤ × ℕ) :=
  rows.map (rasterKey
    (qMin (rows.map (·.x_centered))) (qMax (rows.map (·.x_centered)))
    (qMin (rows.map (·.y_centered))) (qMax (rows.map (·.y_centered)))
    bins timeBinSize)

/-- A row of the raster dataframe returned by spatio_temporal_rasterization. -/
structure RasterRow where
  x_center : ℚ
  y_center : ℚ
  time_center : ℚ
  crash_count : ℕ
  deriving DecidableEq, Repr

/-- BikeCrashDataset.spatio_temporal_rasterization: assign every crash row a
(x_bin, y_bin, time_bin) key, group by key (one output row per distinct key,
in first-occurrence order), and decorate each group with its bin centers and
its size. -/
def spatio_temporal_rasterization (rows : List AlignedCrashRow)
    (bins timeBinSize : ℕ) : List RasterRow :=
  let minX := qMin (rows.map (·.x_centered))
  let maxX := qMax (rows.map (·.x_centered))
  let minY := qMin (rows.map (·.y_centered))
  let maxY := qMax (rows.map (·.y_centered))
  let xBinSize := (maxX - minX) / (bins : ℚ)
  let yBinSize := (maxY - minY) / (bins : ℚ)
  let keyed := rasterKeys rows bins timeBinSize
  (groupKeys keyed).map fun k =>
    { x_center := minX + ((k.1 : ℚ) + 1/2) * xBinSize
      y_center := minY + ((k.2.1 : ℚ) + 1/2) * yBinSize
      time_center := (k.2.2 : ℚ) * (timeBinSize : ℚ) + (timeBinSize : ℚ) / 2
      crash_count := keyed.countP (fun b => b == k) }

/-- Concrete aligned crash dataset used for the C1/C9 witnesses: three crashes,
two of which share the same spatio-temporal bin. -/
def c1Rows : List AlignedCrashRow :=
  [⟨0, 0, 8, 0⟩, ⟨0, 0, 8, 5⟩, ⟨10, 10, 14, 30⟩]

/-- Concrete aligned crash dataset used for C2: two crashes spanning the
spatial bounding box with a single spatial bin per axis. -/
def c2Rows : List AlignedCrashRow := [⟨0, 0, 10, 0⟩, ⟨1, 1, 10, 5⟩]

/-- Concrete one-crash dataset used for the C9 witness. -/
def c9Rows : List AlignedCrashRow := [⟨0, 0, 8, 0⟩]

/- ### DensityEstimator (src/modeling/density_estimator.py) -/

/-- A fitted DensityEstimator: it stores its 2-column training data; the
bounding box attributes x_min/x_max/y_min/y_max are the column minima and
maxima computed in __init__.  The KDE model itself is irrelevant to
normalized_histogram2d and is not modelled. -/
structure DensityEstimator where
  data : List (ℚ × ℚ)
  deriving DecidableEq, Repr

def DensityEstimator.x_min (d : DensityEstimator) : ℚ := qMin (d.data.map Prod.fst)

def DensityEstimator.x_max (d : DensityEstimator) : ℚ := qMax (d.data.map Prod.fst)

def DensityEstimator.y_min (d : DensityEstimator) : ℚ := qMin (d.data.map Prod.snd)

def DensityEstimator.y_max (d : DensityEstimator) : ℚ := qMax (d.data.map Prod.snd)

/-- Bin index a value receives from np.histogram2d along one axis with the
given range: none when the value lies outside [lo, hi] (numpy drops such
samples), the last bin bins - 1 when it sits on the upper edge (numpy's
rightmost bin is closed), otherwise the floor of the scaled offset. -/
def histBin (lo hi : ℚ) (bins : ℕ) (v : ℚ) : Option ℕ :=
  if v < lo ∨ hi < v then none
  else if v = hi then some (bins - 1)
  else some (Int.toNat (Int.floor ((v - lo) / ((hi - lo) / (bins : ℚ)))))

/-- Cell (i, j) of np.histogram2d(x, y, bins, range): the number of samples
whose first coordinate falls in x-bin i and second coordinate in y-bin j. -/
def histCount (data : List (ℚ × ℚ)) (bins : ℕ) (xlo xhi ylo yhi : ℚ) (i j : ℕ) : ℕ :=
  data.countP fun p =>
    histBin xlo xhi bins p.1 == some i && histBin ylo yhi bins p.2 == some j

/-- Cell (i, j) of the array H_norm computed inside
DensityEstimator.normalized_histogram2d: both the numerator and the
denominator histogram are taken over the DENOMINATOR's bounding box, and
H_norm = np.where(H_den < 1, 0, H_num / H_den). -/
def normalizedHistogramCell (num den : DensityEstimator) (bins : ℕ) (i j : ℕ) : ℚ :=
  let h_num := histCount num.data bins den.x_min den.x_max den.y_min den.y_max i j
  let h_den := histCount den.data bins den.x_min den.x_max den.y_min den.y_max i j
  if h_den < 1 then 0 else (h_num : ℚ) / (h_den : ℚ)

/-- The value RETURNED by DensityEstimator.normalized_histogram2d.  The Python
function computes H_norm, hands it to plot_heatmap, and then falls off the end
of its body without a return statement, so every call returns Python None
(modelled as Option.none) even though its docstring promises the normalized
density array. -/
def normalized_histogram2d (num den : DensityEstimator) (bins : ℕ) :
    Option (ℕ → ℕ → ℚ) :=
  let _H_norm := normalizedHistogramCell num den bins
  none

/-- Numerator estimator of the C3 failing input: one sample at the origin. -/
def c3Numerator : DensityEstimator := ⟨[(0, 0)]⟩

/-- Denominator estimator of the C3 failing input: two samples spanning the
box [0,1] x [0,1]. -/
def c3Denominator : DensityEstimator := ⟨[(0, 0), (1, 1)]⟩

/- ### PriceCalculator (src/modeling/price_calculator.py) -/

/-- A clock time: the hour and minute fields of a Python datetime (the only
components the price calculator reads). -/
structure ClockTime where
  hour : ℕ
  minute : ℕ
  deriving DecidableEq, Repr

/-- A row of CitibikeDataset.stations with the columns built by
_process_stations. -/
structure Station where
  station_id : String
  station_name : String
  lat : ℚ
  lng : ℚ
  start_count : ℕ
  end_count : ℕ
  x : ℚ
  y : ℚ
  x_centered : ℚ
  y_centered : ℚ
  deriving DecidableEq, Repr

/-- A cleaned Citibike ride as read by PriceCalculator: the station ids and
the clock times of the parsed started_at and ended_at datetimes. -/
structure RideRow where
  start_station_id : String
  end_station_id : String
  started_at : ClockTime
  ended_at : ClockTime
  deriving DecidableEq, Repr

/-- The parts of a CitibikeDataset that PriceCalculator reads. -/
structure CitibikeTables where
  stations : List Station
  df_rides : List RideRow

/-- PriceCalculator: the pickled regression model is an opaque function from
(x_centered, y_centered, time_center) to a predicted crash count. -/
structure PriceCalculator where
  model : ℚ → ℚ → ℚ → ℚ
  citibike_dataset : CitibikeTables
  time_bin_size : ℕ
  cost_per_accident : ℚ
  traffic_adjustment : ℚ

/-- PriceCalculator.convert_time_to_minutes: dt.hour * 60 + dt.minute. -/
def convert_time_to_minutes (dt : ClockTime) : ℕ := dt.hour * 60 + dt.minute

/-- PriceCalculator.get_time_bin_center: time_bin = minutes // time_bin_size
(integer floor division) and the returned center is
time_bin * time_bin_size + time_bin_size / 2 (Python true division, an exact
rational). -/
def get_time_bin_center (timeBinSize : ℕ) (minutes : ℕ) : ℚ :=
  ((minutes / timeBinSize : ℕ) : ℚ) * (timeBinSize : ℚ) + (timeBinSize : ℚ) / 2

/-- The traffic computed by predict_insurance_price: the number of cleaned
rides starting at the station whose started_at clock time falls in the given
time bin, plus the number ending there whose ended_at falls in that bin. -/
def stationTraffic (ds : CitibikeTables) (timeBinSize : ℕ) (sid : String)
    (binIndex : ℕ) : ℕ :=
  ((ds.df_rides.filter fun r => r.start_station_id == sid).countP
      fun r => convert_time_to_minutes r.started_at / timeBinSize == binIndex) +
  ((ds.df_rides.filter fun r => r.end_station_id == sid).countP
      fun r => convert_time_to_minutes r.ended_at / timeBinSize == binIndex)

/-- PriceCalculator.predict_insurance_price.  The station lookup takes the
first stations row whose station_id equals the requested id; none models the
IndexError Python raises when no row matches. -/
def predict_insurance_price (pc : PriceCalculator) (started_at : ClockTime)
    (start_station_id : String) : Option (ℚ × ℚ) :=
  match (pc.citibike_dataset.stations.filter
      fun s => s.station_id == start_station_id).head? with
  | none => none
  | some station_row =>
    let minutes := convert_time_to_minutes started_at
    let time_center := get_time_bin_center pc.time_bin_size minutes
    let predicted_crash_count :=
      pc.model station_row.x_centered station_row.y_centered time_center
    let bin_index := minutes / pc.time_bin_size
    let traffic := stationTraffic pc.citibike_dataset pc.time_bin_size
      start_station_id bin_index
    let risk_per_ride := if 0 < traffic then predicted_crash_count / (traffic : ℚ)
      else predicted_crash_count
    some (risk_per_ride * pc.cost_per_accident * pc.traffic_adjustment, risk_per_ride)

/-- Concrete station for the C4 witness. -/
def c4Station : Station := ⟨"A1", "Station A", 40, -74, 2, 1, 5, 6, 1, 2⟩

/-- Concrete calculator for the C4 witness: one station, one ride, 30-minute
bins. -/
def c4Calc : PriceCalculator :=
  ⟨fun x y t => x + y + t,
   ⟨[c4Station], [⟨"A1", "B1", ⟨8, 10⟩, ⟨8, 25⟩⟩]⟩,
   30, 5000, 1 / 1000⟩

/- ### CitibikeDataset (src/datasets/citibike_dataset.py) -/

/-- A raw Citibike ride record over the 13 required columns; a missing value
(NaN) is none. -/
structure RawRide where
  ride_id : Option String
  rideable_type : Option String
  started_at : Option String
  ended_at : Option String
  start_station_name : Option String
  start_station_id : Option String
  end_station_name : Option String
  end_station_id : Option String
  start_lat : Option ℚ
  start_lng : Option ℚ
  end_lat : Option ℚ
  end_lng : Option ℚ
  member_casual : Option String
  deriving DecidableEq, Repr

/-- True when the record has a missing value in some column; these are the
rows df.dropna() removes. -/
def hasNull (r : RawRide) : Bool :=
  r.ride_id.isNone || r.rideable_type.isNone || r.started_at.isNone ||
  r.ended_at.isNone || r.start_station_name.isNone || r.start_station_id.isNone ||
  r.end_station_name.isNone || r.end_station_id.isNone || r.start_lat.isNone ||
  r.start_lng.isNone || r.end_lat.isNone || r.end_lng.isNone || r.member_casual.isNone

/-- cleaned_df = df.dropna().reset_index(drop=True): the records without
missing values, reindexed 0..k-1. -/
def cleanedRides (df : List RawRide) : List RawRide := df.filter fun r => !hasNull r

/-- The dropped_rows attribute set by CitibikeDataset.__init__.  The code
computes dropped_mask = ~original_df.index.isin(cleaned_df.index) AFTER
cleaned_df was reindexed to 0..k-1, so the mask is true exactly at the
original positions k..n-1 where k = len(cleaned_df): the attribute holds the
last n-k input rows, wherever the rows with missing values actually sit. -/
def dropped_rows (df : List RawRide) : List RawRide := df.drop (cleanedRides df).length

/-- First ride of the C5 failing input: its end_station_id is missing. -/
def c5RideA : RawRide :=
  ⟨some "1", some "electric_bike", some "t1", some "t2", some "Station A",
   some "A1", some "Station A", none, some 1, some 2, some 1, some 2, some "member"⟩

/-- Second ride of the C5 failing input: complete. -/
def c5RideB : RawRide :=
  ⟨some "2", some "classic_bike", some "t3", some "t4", some "Station B",
   some "B1", some "Station B", some "B1", some 3, some 4, some 3, some 4, some "casual"⟩

/-- Third ride of the C5 failing input: complete. -/
def c5RideC : RawRide :=
  ⟨some "3", some "classic_bike", some "t5", some "t6", some "Station C",
   some "C1", some "Station C", some "C1", some 5, some 6, some 5, some 6, some "member"⟩

/-- The C5 failing input: the only row with a missing value comes first. -/
def c5Rides : List RawRide := [c5RideA, c5RideB, c5RideC]

/-- pandas drop_duplicates(subset=key): keep the first record for each
distinct key. -/
def dedupByKey {α β : Type} [BEq β] (key : α → β) : List α → List α
  | [] => []
  | a :: as => a :: dedupByKey key (as.filter fun b => !(key b == key a))
termination_by l => l.length
decreasing_by simpa using Nat.lt_succ_of_le (List.length_filter_le _ _)

/-- The four station columns extracted from one endpoint of a ride, after the
rename to station_id/station_name/lat/lng. -/
structure StationRecord where
  station_id : String
  station_name : String
  lat : ℚ
  lng : ℚ
  deriving DecidableEq, Repr

/-- Start-endpoint station records: the dropna() over the four start columns
followed by the rename; rides with any of the four missing are skipped. -/
def startStationRecords (rides : List RawRide) : List StationRecord :=
  rides.filterMap fun r =>
    match r.start_station_id, r.start_station_name, r.start_lat, r.start_lng with
    | some sid, some name, some lat, some lng => some ⟨sid, name, lat, lng⟩
    | _, _, _, _ => none

/-- End-endpoint station records, analogously. -/
def endStationRecords (rides : List RawRide) : List StationRecord :=
  rides.filterMap fun r =>
    match r.end_station_id, r.end_station_name, r.end_lat, r.end_lng with
    | some sid, some name, some lat, some lng => some ⟨sid, name, lat, lng⟩
    | _, _, _, _ => none

/-- CitibikeDataset._process_stations: deduplicate the start and end endpoint
records by station_id, concatenate, deduplicate by station_id again, decorate
with usage counts (value_counts merged how='left' with fillna(0)), transform
to Web Mercator with the pyproj transformer (an explicit parameter here) and
center on the mean station coordinates. -/
def processStations (transform : ℚ → ℚ → ℚ × ℚ) (rides : List RawRide) : List Station :=
  let startStations := dedupByKey StationRecord.station_id (startStationRecords rides)
  let endStations := dedupByKey StationRecord.station_id (endStationRecords rides)
  let stations := dedupByKey StationRecord.station_id (startStations ++ endStations)
  let xys := stations.map fun rec => transform rec.lng rec.lat
  let x_center := (xys.map Prod.fst).sum / (xys.length : ℚ)
  let y_center := (xys.map Prod.snd).sum / (xys.length : ℚ)
  stations.map fun rec =>
    let xy := transform rec.lng rec.lat
    { station_id := rec.station_id
      station_name := rec.station_name
      lat := rec.lat
      lng := rec.lng
      start_count := rides.countP fun r => r.start_station_id == some rec.station_id
      end_count := rides.countP fun r => r.end_station_id == some rec.station_id
      x := xy.1
      y := xy.2
      x_centered := xy.1 - x_center
      y_centered := xy.2 - y_center }

/-- A CSV table as loaded by pd.read_csv: the header columns together with the
parsed records restricted to the 13 Citibike columns. -/
structure CsvTable where
  cols : List String
  rows : List RawRide
  deriving DecidableEq, Repr

/-- What the filesystem holds at the path handed to CitibikeDataset.__init__:
nothing, a file (whose contents pd.read_csv either parses or fails on, the
read failure being re-raised as ValueError), or a directory together with the
readable CSV tables found beneath it after ZIP extraction (unreadable ones
only produce a printed warning). -/
inductive FSEntry where
  | missing
  | file (contents : Option CsvTable)
  | directory (tables : List CsvTable)
  deriving DecidableEq, Repr

/-- The two exception kinds CitibikeDataset.__init__ raises. -/
inductive CitibikeError where
  | fileNotFound
  | valueError
  deriving DecidableEq, Repr

/-- The 13 required Citibike columns checked by __init__. -/
def citibikeRequiredColumns : List String :=
  ["ride_id", "rideable_type", "started_at", "ended_at",
   "start_station_name", "start_station_id", "end_station_name", "end_station_id",
   "start_lat", "start_lng", "end_lat", "end_lng", "member_casual"]

/-- The attributes a successful CitibikeDataset.__init__ leaves behind that
the claims read; derived ride columns (durations, normalisations) are not
modelled as no claim mentions them. -/
structure CitibikeState where
  df_rides : List RawRide
  dropped_rows : List RawRide
  stations : List Station
  deriving Repr

/-- pd.concat of the tables found under a directory: all columns, all rows. -/
def concatTables (tables : List CsvTable) : CsvTable :=
  ⟨(tables.map CsvTable.cols).flatten, (tables.map CsvTable.rows).flatten⟩

/-- Lower-case a character list (str.lower). -/
def lowerChars (l : List Char) : List Char := l.map Char.toLower

/-- Whether the first list is an initial segment of the second. -/
def startsWithChars : List Char → List Char → Bool
  | [], _ => true
  | _ :: _, [] => false
  | a :: as, b :: bs => a == b && startsWithChars as bs

/-- path.lower().endswith('.csv'). -/
def endsWithCsvLower (path : String) : Bool :=
  startsWithChars (".csv".toList.reverse) ((lowerChars path.toList).reverse)

/-- The column check and cleaning part of CitibikeDataset.__init__ once a
table has been loaded: ValueError when one of the 13 required columns is
missing, otherwise clean the rows, record dropped_rows and build the stations
table. -/
def buildCitibike (transform : ℚ → ℚ → ℚ × ℚ) (t : CsvTable) :
    Except CitibikeError CitibikeState :=
  if citibikeRequiredColumns.all (fun c => t.cols.contains c) then
    .ok ⟨cleanedRides t.rows, dropped_rows t.rows,
         processStations transform (cleanedRides t.rows)⟩
  else .error .valueError

/-- CitibikeDataset.__init__ over an abstract filesystem entry. -/
def citibike_init (transform : ℚ → ℚ → ℚ × ℚ) (path : String) (entry : FSEntry) :
    Except CitibikeError CitibikeState :=
  match entry with
  | .missing => .error .fileNotFound
  | .file contents =>
    if endsWithCsvLower path then
      match contents with
      | some t => buildCitibike transform t
      | none => .error .valueError
    else .error .valueError
  | .directory tables =>
    match tables with
    | [] => .error .valueError
    | t :: ts => buildCitibike transform (concatTables (t :: ts))

/-- Table for the C7 witness: all 13 required columns, one complete ride. -/
def c7Table : CsvTable := ⟨citibikeRequiredColumns, [c5RideB]⟩

/-- Coordinate transformer used by concrete examples: an arbitrary injective
affine stand-in for the EPSG:4326 to EPSG:3857 reprojection. -/
def exampleTransform (lng lat : ℚ) : ℚ × ℚ := (100 * lng, 200 * lat)

/- ### BikeCrashDataset._process_dataset (src/datasets/bike_crash_dataset.py) -/

/-- A raw NYPD crash record with the columns _process_dataset reads; a missing
value (NaN) is none.  vehicle_type_codes holds the cells of the VEHICLE TYPE
CODE 1..5 columns present in the table (a column absent from the table
behaves exactly like an all-missing column in every condition below). -/
structure RawCrashRow where
  crash_date : Option String
  crash_time : Option String
  latitude : Option ℚ
  longitude : Option ℚ
  cyclist_injured : Option ℤ
  cyclist_killed : Option ℤ
  vehicle_type_codes : List (Option String)
  deriving DecidableEq, Repr

/-- A pandas comparison (series > 0): false on a missing value. -/
def optIntPos : Option ℤ → Bool
  | some n => decide (0 < n)
  | none => false

/-- Whether needle occurs as a contiguous run inside the character list. -/
def containsChars (needle : List Char) : List Char → Bool
  | [] => needle.isEmpty
  | c :: cs => startsWithChars needle (c :: cs) || containsChars needle cs

/-- One vehicle-type cell run through
astype(str).str.lower().str.contains('bic|bik'): astype(str) renders NaN as
the string 'nan', which matches neither alternative, so a missing cell yields
false. -/
def cellMatchesBike : Option String → Bool
  | some s => containsChars "bic".toList (lowerChars s.toList) ||
      containsChars "bik".toList (lowerChars s.toList)
  | none => false

/-- condition_cyclist: a cyclist was injured or killed. -/
def condition_cyclist (r : RawCrashRow) : Bool :=
  optIntPos r.cyclist_injured || optIntPos r.cyclist_killed

/-- vehicle_condition: some vehicle type code matches 'bic|bik'
case-insensitively. -/
def vehicle_condition (r : RawCrashRow) : Bool :=
  r.vehicle_type_codes.any cellMatchesBike

/-- combined_condition = condition_cyclist | vehicle_condition. -/
def combined_condition (r : RawCrashRow) : Bool :=
  condition_cyclist r || vehicle_condition r

/-- dropna(subset=essential_cols): all four essential columns present. -/
def essentialNotNull (r : RawCrashRow) : Bool :=
  r.crash_date.isSome && r.crash_time.isSome &&
  r.latitude.isSome && r.longitude.isSome

/-- (df['LATITUDE'] != 0) & (df['LONGITUDE'] != 0); a missing value compares
unequal to 0 in pandas. -/
def coordsNonzero (r : RawCrashRow) : Bool :=
  !(r.latitude == some 0) && !(r.longitude == some 0)

/-- A row of the processed bike-crash dataframe with exactly the seven
selected columns. -/
structure ProcessedCrashRow where
  crash_date : Option String
  crash_time : Option String
  latitude : Option ℚ
  longitude : Option ℚ
  crash_datetime : Option ℚ
  x : ℚ
  y : ℚ
  deriving DecidableEq, Repr

/-- Decorating one surviving row: CRASH_DATETIME is
pd.to_datetime(date + ' ' + time, errors='coerce') — string concatenation
propagates missing values, and the parser (parameter parseDatetime) yields
none (NaT) on failure — and (x, y) is the pyproj transform (parameter) of
(LONGITUDE, LATITUDE). -/
def projectCrashRow (transform : ℚ → ℚ → ℚ × ℚ) (parseDatetime : String → Option ℚ)
    (r : RawCrashRow) : ProcessedCrashRow :=
  let xy := transform (r.longitude.getD 0) (r.latitude.getD 0)
  { crash_date := r.crash_date
    crash_time := r.crash_time
    latitude := r.latitude
    longitude := r.longitude
    crash_datetime :=
      match r.crash_date, r.crash_time with
      | some d, some t => parseDatetime (d ++ " " ++ t)
      | _, _ => none
    x := xy.1
    y := xy.2 }

/-- BikeCrashDataset._process_dataset: keep the rows satisfying
combined_condition, drop rows with a missing essential column, drop rows with
zero coordinates, then decorate with CRASH_DATETIME and the reprojected
coordinates and select the seven output columns. -/
def processCrashDataset (transform : ℚ → ℚ → ℚ × ℚ)
    (parseDatetime : String → Option ℚ) (df : List RawCrashRow) :
    List ProcessedCrashRow :=
  (((df.filter combined_condition).filter essentialNotNull).filter
    coordsNonzero).map (projectCrashRow transform parseDatetime)

/-- BikeCrashDataset.REQUIRED_COLUMNS. -/
def bikeCrashRequiredColumns : List String :=
  ["CRASH DATE", "CRASH TIME", "LATITUDE", "LONGITUDE", "CRASH_DATETIME", "x", "y"]

/-- The column selection on the last line of _process_dataset. -/
def processedCrashColumns : List String :=
  ["CRASH DATE", "CRASH TIME", "LATITUDE", "LONGITUDE", "CRASH_DATETIME", "x", "y"]

/-- Datetime parser stand-in used by concrete examples. -/
def exampleParseDatetime (s : String) : Option ℚ := some (s.length : ℚ)

/-- Concrete raw crash table for the C6 witness: a kept cyclist-injury row, a
row with no bike involvement, a row with a missing essential column, a row at
zero latitude, and a row kept through its vehicle type code. -/
def c6Rows : List RawCrashRow :=
  [⟨some "2023-01-01", some "10:00", some 40, some (-74), some 1, some 0, [some "Sedan"]⟩,
   ⟨some "2023-01-01", some "10:05", some 40, some (-74), some 0, some 0, [some "Sedan"]⟩,
   ⟨none, some "10:10", some 40, some (-74), some 1, some 0, [some "Sedan"]⟩,
   ⟨some "2023-01-01", some "10:15", some 0, some (-74), some 1, some 0, [some "Sedan"]⟩,
   ⟨some "2023-01-01", some "10:20", some 40, some (-74), some 0, some 0, [some "E-Bike", none]⟩]

/- ### Theorems -/

theorem foldl_min_le_init (l : List ℚ) (a : ℚ) : l.foldl min a ≤ a := by
  induction l generalizing a with
  | nil => simp
  | cons b l ih => exact le_trans (ih (min a b)) (min_le_left a b)

theorem foldl_min_le_mem (l : List ℚ) (a x : ℚ) (h : x ∈ l) : l.foldl min a ≤ x := by
  induction l generalizing a with
  | nil => cases h
  | cons b l ih =>
    rcases List.mem_cons.mp h with rfl | h
    · exact le_trans (foldl_min_le_init l (min a x)) (min_le_right a x)
    · exact ih (min a b) h

theorem qMin_le_mem (l : List ℚ) (x : ℚ) (h : x ∈ l) : qMin l ≤ x := by
  cases l with
  | nil => cases h
  | cons b l =>
    rcases List.mem_cons.mp h with rfl | h
    · exact foldl_min_le_init l x
    · exact foldl_min_le_mem l b x h

theorem init_le_foldl_max (l : List ℚ) (a : ℚ) : a ≤ l.foldl max a := by
  induction l generalizing a with
  | nil => simp
  | cons b l ih => exact le_trans (le_max_left a b) (ih (max a b))

theorem mem_le_foldl_max (l : List ℚ) (a x : ℚ) (h : x ∈ l) : x ≤ l.foldl max a := by
  induction l generalizing a with
  | nil => cases h
  | cons b l ih =>
    rcases List.mem_cons.mp h with rfl | h
    · exact le_trans (le_max_right a x) (init_le_foldl_max l (max a x))
    · exact ih (max a b) h

theorem mem_le_qMax (l : List ℚ) (x : ℚ) (h : x ∈ l) : x ≤ qMax l := by
  cases l with
  | nil => cases h
  | cons b l =>
    rcases List.mem_cons.mp h with rfl | h
    · exact init_le_foldl_max l x
    · exact mem_le_foldl_max l b x h

theorem mem_of_mem_groupKeys {α : Type} [BEq α] [LawfulBEq α] :
    ∀ (l : List α) (x : α), x ∈ groupKeys l → x ∈ l := by
  intro l
  induction l using groupKeys.induct with
  | case1 => intro x hx; simp [groupKeys] at hx
  | case2 a as ih =>
    intro x hx
    rw [groupKeys] at hx
    rcases List.mem_cons.mp hx with rfl | hx
    · exact List.mem_cons_self _ _
    · exact List.mem_cons_of_mem a (List.mem_of_mem_filter (ih x hx))

/-- Summing the sizes of the groups of a groupby recovers the length of the
grouped list: the groups partition the rows. -/
theorem groupKeys_sum_countP {α : Type} [BEq α] [LawfulBEq α] :
    ∀ (l : List α), ((groupKeys l).map (fun g => l.countP (fun b => b == g))).sum = l.length := by
  intro l
  induction l using groupKeys.induct with
  | case1 => simp [groupKeys]
  | case2 a as ih =>
    rw [groupKeys]
    simp only [List.map_cons, List.sum_cons]
    have hhead : (a :: as).countP (fun b => b == a) = 1 + as.countP (fun b => b == a) := by
      simp [List.countP_cons, Nat.add_comm]
    have htail : ∀ g ∈ groupKeys (as.filter fun b => !(b == a)),
        (a :: as).countP (fun b => b == g) =
          (as.filter fun b => !(b == a)).countP (fun b => b == g) := by
      intro g hg
      have hgmem := mem_of_mem_groupKeys _ _ hg
      have hga : (g == a) = false := by
        have := List.of_mem_filter hgmem
        simpa using this
      have hga' : g ≠ a := by
        intro h; rw [h] at hga; simp at hga
      have hag : (a == g) = false := by
        rw [beq_eq_false_iff_ne]
        exact fun h => hga' h.symm
      rw [List.countP_cons, hag]
      simp only [Bool.false_eq_true, if_false, Nat.add_zero]
      rw [List.countP_filter]
      apply List.countP_congr
      intro b _
      constructor
      · intro hb
        simp only [Bool.and_eq_true, hb, true_and]
        have : b = g := eq_of_beq hb
        subst this
        simpa using hga
      · intro hb
        exact (Bool.and_eq_true _ _ |>.mp hb).1
    have hsplit : as.countP (fun b => b == a) + (as.filter fun b => !(b == a)).length
        = as.length := by
      rw [← List.countP_eq_length_filter]
      have h := List.length_eq_countP_add_countP (fun b => b == a) as
      rw [h]
      congr 1
      apply List.countP_congr
      intro b _
      simp
    rw [List.map_congr_left htail, ih, hhead]
    simp only [List.length_cons]
    omega

theorem countP_self_pos {α : Type} [BEq α] [LawfulBEq α] (l : List α) (x : α) (h : x ∈ l) :
    1 ≤ l.countP (fun b => b == x) := by
  rw [Nat.one_le_iff_ne_zero]
  intro h0
  have := List.countP_eq_zero.mp h0 x h
  simp at this

/-- C1: for a non-empty aligned crash dataset whose x_centered values are not
all equal and whose y_centered values are not all equal, the crash_count
column of the raster returned by spatio_temporal_rasterization sums to the
number of crash rows: every crash is counted in exactly one spatio-temporal
bin. -/
theorem C1_raster_counts_every_crash_once (rows : List AlignedCrashRow)
    (bins timeBinSize : ℕ) (_hne : rows ≠ [])
    (_hx : qMin (rows.map (·.x_centered)) < qMax (rows.map (·.x_centered)))
    (_hy : qMin (rows.map (·.y_centered)) < qMax (rows.map (·.y_centered))) :
    ((spatio_temporal_rasterization rows bins timeBinSize).map
      (·.crash_count)).sum = rows.length := by
  unfold spatio_temporal_rasterization
  simp only [List.map_map]
  show ((groupKeys (rasterKeys rows bins timeBinSize)).map
      (fun k => (rasterKeys rows bins timeBinSize).countP (fun b => b == k))).sum = rows.length
  have h2 : (rasterKeys rows bins timeBinSize).length = rows.length := by
    simp [rasterKeys]
  exact (groupKeys_sum_countP (rasterKeys rows bins timeBinSize)).trans h2

theorem C1_raster_counts_every_crash_once_witness :
    ((spatio_temporal_rasterization c1Rows 10 15).map (·.crash_count)).sum
      = c1Rows.length :=
  C1_raster_counts_every_crash_once c1Rows 10 15 (by simp [c1Rows])
    (by simp [c1Rows, qMin, qMax])
    (by simp [c1Rows, qMin, qMax])

/-- C2, counterexample to the claim as stated: with bins = 1 (and a dataset
meeting every precondition of the claim: non-empty, x values not all equal,
y values not all equal), the row lying at the spatial maximum is assigned
x_bin = 1 and y_bin = 1, which are not in the range 0..bins-1 = {0}. -/
theorem C2_spatial_bin_range_counterexample :
    ¬ (∀ k ∈ rasterKeys c2Rows 1 15,
        (0 ≤ k.1 ∧ k.1 < 1) ∧ (0 ≤ k.2.1 ∧ k.2.1 < 1)) := by
  intro h
  have hmem : ((1 : ℤ), (1 : ℤ), (40 : ℕ)) ∈ rasterKeys c2Rows 1 15 := by
    have : rasterKeys c2Rows 1 15 = [(0, 0, 40), (1, 1, 40)] := by
      simp [rasterKeys, c2Rows, rasterKey, spatialBin, qMin, qMax, time_to_minutes]
    rw [this]; simp
  have := (h _ hmem).1.2
  omega

theorem spatialBin_nonneg_le_bins (v lo hi : ℚ) (bins : ℕ) (hb : 1 ≤ bins)
    (hlo : lo ≤ v) (hv : v ≤ hi) (hlt : lo < hi) :
    0 ≤ spatialBin v lo hi bins ∧ spatialBin v lo hi bins ≤ (bins : ℤ) := by
  have hbq : (0 : ℚ) < (bins : ℚ) := by exact_mod_cast Nat.lt_of_lt_of_le Nat.zero_lt_one hb
  have hbsz : (0 : ℚ) < (hi - lo) / (bins : ℚ) := div_pos (sub_pos.mpr hlt) hbq
  constructor
  · exact Int.floor_nonneg.mpr (div_nonneg (sub_nonneg.mpr hlo) (le_of_lt hbsz))
  · have harg : (v - lo) / ((hi - lo) / (bins : ℚ)) ≤ (bins : ℚ) := by
      rw [div_le_iff₀ hbsz]
      calc v - lo ≤ hi - lo := sub_le_sub_right hv lo
        _ = (bins : ℚ) * ((hi - lo) / (bins : ℚ)) := by
            field_simp
    calc spatialBin v lo hi bins ≤ Int.floor ((bins : ℚ)) := Int.floor_le_floor harg
      _ = (bins : ℤ) := Int.floor_natCast bins

/-- C2, amended: under the claim's preconditions (bins ≥ 1, non-empty data,
x values not all equal, y values not all equal), every crash row is assigned
spatial bin indices x_bin and y_bin lying in the range 0..bins INCLUSIVE (the
value bins occurs for rows sitting exactly on the spatial maximum), so the
raster contains at most bins+1 distinct x_bin values and at most bins+1
distinct y_bin values. -/
theorem C2_spatial_bin_range_amended (rows : List AlignedCrashRow)
    (bins timeBinSize : ℕ) (hb : 1 ≤ bins) (_hne : rows ≠ [])
    (hx : qMin (rows.map (·.x_centered)) < qMax (rows.map (·.x_centered)))
    (hy : qMin (rows.map (·.y_centered)) < qMax (rows.map (·.y_centered))) :
    ∀ k ∈ rasterKeys rows bins timeBinSize,
      (0 ≤ k.1 ∧ k.1 ≤ (bins : ℤ)) ∧ (0 ≤ k.2.1 ∧ k.2.1 ≤ (bins : ℤ)) := by
  intro k hk
  rcases List.mem_map.mp hk with ⟨r, hr, rfl⟩
  constructor
  · exact spatialBin_nonneg_le_bins _ _ _ bins hb
      (qMin_le_mem _ _ (List.mem_map_of_mem (·.x_centered) hr))
      (mem_le_qMax _ _ (List.mem_map_of_mem (·.x_centered) hr)) hx
  · exact spatialBin_nonneg_le_bins _ _ _ bins hb
      (qMin_le_mem _ _ (List.mem_map_of_mem (·.y_centered) hr))
      (mem_le_qMax _ _ (List.mem_map_of_mem (·.y_centered) hr)) hy

theorem C2_spatial_bin_range_amended_witness :
    ((1 : ℤ), (1 : ℤ), (40 : ℕ)) ∈ rasterKeys c2Rows 1 15 ∧
    (0 ≤ (1 : ℤ) ∧ (1 : ℤ) ≤ ((1 : ℕ) : ℤ)) ∧
    (0 ≤ (1 : ℤ) ∧ (1 : ℤ) ≤ ((1 : ℕ) : ℤ)) := by
  have hmem : ((1 : ℤ), (1 : ℤ), (40 : ℕ)) ∈ rasterKeys c2Rows 1 15 := by
    have heq : rasterKeys c2Rows 1 15 = [(0, 0, 40), (1, 1, 40)] := by
      simp [rasterKeys, c2Rows, rasterKey, spatialBin, qMin, qMax, time_to_minutes]
    rw [heq]
    simp
  exact ⟨hmem, C2_spatial_bin_range_amended c2Rows 1 15 (le_refl 1) (by simp [c2Rows])
    (by simp [c2Rows, qMin, qMax]) (by simp [c2Rows, qMin, qMax]) _ hmem⟩

/-- C9: every row of the raster returned by spatio_temporal_rasterization has
crash_count ≥ 1; spatio-temporal bins containing no crash produce no group in
the groupby and are hence absent from the output. -/
theorem C9_raster_rows_have_positive_count (rows : List AlignedCrashRow)
    (bins timeBinSize : ℕ) :
    ∀ row ∈ spatio_temporal_rasterization rows bins timeBinSize,
      1 ≤ row.crash_count := by
  intro row hrow
  unfold spatio_temporal_rasterization at hrow
  rcases List.mem_map.mp hrow with ⟨k, hk, rfl⟩
  exact countP_self_pos _ _ (mem_of_mem_groupKeys _ _ hk)

theorem C9_raster_rows_have_positive_count_witness :
    (⟨0, 0, 975 / 2, 1⟩ : RasterRow) ∈ spatio_temporal_rasterization c9Rows 10 15 ∧
    1 ≤ (RasterRow.crash_count ⟨0, 0, 975 / 2, 1⟩) := by
  have hmem : (⟨0, 0, 975 / 2, 1⟩ : RasterRow) ∈ spatio_temporal_rasterization c9Rows 10 15 := by
    simp [spatio_temporal_rasterization, rasterKeys, c9Rows, rasterKey, spatialBin,
      time_to_minutes, qMin, qMax, groupKeys]
    norm_num
  exact ⟨hmem, C9_raster_rows_have_positive_count c9Rows 10 15 _ hmem⟩

/-- C3: evaluation of the code at the failing input.  The internally computed
H_norm array does hold the claimed ratio H_num/H_den = 1/2 in its only cell
(and 0 wherever H_den < 1), but normalized_histogram2d returns None for every
input — the function body has no return statement — so it does not return the
normalized density array the claim (and its own docstring) describe. -/
theorem C3_normalized_histogram2d_returns_none :
    normalized_histogram2d c3Numerator c3Denominator 1 = none ∧
    normalizedHistogramCell c3Numerator c3Denominator 1 0 0 = 1 / 2 := by
  constructor
  · rfl
  · simp [normalizedHistogramCell, histCount, histBin, c3Numerator, c3Denominator,
      DensityEstimator.x_min, DensityEstimator.x_max, DensityEstimator.y_min,
      DensityEstimator.y_max, qMin, qMax, List.countP_cons]

/-- C4: when the requested station id occurs exactly once in the stations
table, predict_insurance_price returns (insurance_price, risk_per_ride) with
insurance_price = risk_per_ride * cost_per_accident * traffic_adjustment, and
risk_per_ride is the model's predicted crash count divided by the station's
traffic in the ride's time bin when that traffic is positive, and the
predicted crash count itself when the traffic is zero. -/
theorem C4_insurance_price_formula (pc : PriceCalculator) (started_at : ClockTime)
    (sid : String) (st : Station)
    (hunique : pc.citibike_dataset.stations.filter (fun s => s.station_id == sid) = [st]) :
    ∃ risk, predict_insurance_price pc started_at sid =
        some (risk * pc.cost_per_accident * pc.traffic_adjustment, risk) ∧
      (let predicted := pc.model st.x_centered st.y_centered
          (get_time_bin_center pc.time_bin_size (convert_time_to_minutes started_at));
       let traffic := stationTraffic pc.citibike_dataset pc.time_bin_size sid
          (convert_time_to_minutes started_at / pc.time_bin_size);
       risk = if 0 < traffic then predicted / (traffic : ℚ) else predicted) := by
  refine ⟨_, ?_, rfl⟩
  unfold predict_insurance_price
  rw [hunique]
  rfl

theorem C4_insurance_price_formula_witness :
    ∃ risk, predict_insurance_price c4Calc ⟨8, 20⟩ "A1" =
        some (risk * c4Calc.cost_per_accident * c4Calc.traffic_adjustment, risk) ∧
      (let predicted := c4Calc.model c4Station.x_centered c4Station.y_centered
          (get_time_bin_center c4Calc.time_bin_size (convert_time_to_minutes ⟨8, 20⟩));
       let traffic := stationTraffic c4Calc.citibike_dataset c4Calc.time_bin_size "A1"
          (convert_time_to_minutes ⟨8, 20⟩ / c4Calc.time_bin_size);
       risk = if 0 < traffic then predicted / (traffic : ℚ) else predicted) :=
  C4_insurance_price_formula c4Calc ⟨8, 20⟩ "A1" c4Station (by simp [c4Calc, c4Station])

/-- C8: every datetime's minutes-since-midnight value m = hour * 60 + minute
lies in 0..1439 and satisfies c - s/2 ≤ m < c + s/2 for the bin center
c = get_time_bin_center(m) and every positive time bin size s: every time
falls inside the bin whose center is returned for it. -/
theorem C8_time_falls_inside_its_bin (dt : ClockTime) (timeBinSize : ℕ)
    (hh : dt.hour ≤ 23) (hm : dt.minute ≤ 59) (hpos : 0 < timeBinSize) :
    convert_time_to_minutes dt ≤ 1439 ∧
    get_time_bin_center timeBinSize (convert_time_to_minutes dt) - (timeBinSize : ℚ) / 2
        ≤ (convert_time_to_minutes dt : ℚ) ∧
    (convert_time_to_minutes dt : ℚ) <
      get_time_bin_center timeBinSize (convert_time_to_minutes dt) + (timeBinSize : ℚ) / 2 := by
  refine ⟨by unfold convert_time_to_minutes; omega, ?_, ?_⟩
  · have h := Nat.div_mul_le_self (convert_time_to_minutes dt) timeBinSize
    have hq : ((convert_time_to_minutes dt / timeBinSize : ℕ) : ℚ) * (timeBinSize : ℚ)
        ≤ (convert_time_to_minutes dt : ℚ) := by exact_mod_cast h
    unfold get_time_bin_center
    linarith
  · have h1 := Nat.div_add_mod (convert_time_to_minutes dt) timeBinSize
    have h2 := Nat.mod_lt (convert_time_to_minutes dt) hpos
    have h3 : convert_time_to_minutes dt
        < convert_time_to_minutes dt / timeBinSize * timeBinSize + timeBinSize := by
      rw [Nat.mul_comm]
      omega
    have hq : (convert_time_to_minutes dt : ℚ) <
        ((convert_time_to_minutes dt / timeBinSize : ℕ) : ℚ) * (timeBinSize : ℚ)
          + (timeBinSize : ℚ) := by exact_mod_cast h3
    unfold get_time_bin_center
    linarith

theorem C8_time_falls_inside_its_bin_witness :
    convert_time_to_minutes ⟨14, 37⟩ ≤ 1439 ∧
    get_time_bin_center 30 (convert_time_to_minutes ⟨14, 37⟩) - (30 : ℚ) / 2
        ≤ (convert_time_to_minutes ⟨14, 37⟩ : ℚ) ∧
    (convert_time_to_minutes ⟨14, 37⟩ : ℚ) <
      get_time_bin_center 30 (convert_time_to_minutes ⟨14, 37⟩) + (30 : ℚ) / 2 :=
  C8_time_falls_inside_its_bin ⟨14, 37⟩ 30 (by decide) (by decide) (by decide)

theorem mem_of_mem_dedupByKey {α β : Type} [BEq β] (key : α → β) :
    ∀ (l : List α) (x : α), x ∈ dedupByKey key l → x ∈ l := by
  intro l
  induction l using dedupByKey.induct key with
  | case1 => intro x hx; simp [dedupByKey] at hx
  | case2 a as ih =>
    intro x hx
    rw [dedupByKey] at hx
    rcases List.mem_cons.mp hx with rfl | hx
    · exact List.mem_cons_self _ _
    · exact List.mem_cons_of_mem a (List.mem_of_mem_filter (ih x hx))

/-- drop_duplicates(subset=key) leaves pairwise distinct key values. -/
theorem dedupByKey_keys_nodup {α β : Type} [BEq β] [LawfulBEq β] (key : α → β) :
    ∀ (l : List α), ((dedupByKey key l).map key).Nodup := by
  intro l
  induction l using dedupByKey.induct key with
  | case1 => simp [dedupByKey]
  | case2 a as ih =>
    rw [dedupByKey]
    simp only [List.map_cons, List.nodup_cons]
    refine ⟨?_, ih⟩
    intro hmem
    rcases List.mem_map.mp hmem with ⟨x, hx, hkey⟩
    have hxf := mem_of_mem_dedupByKey key _ x hx
    have hfil := List.of_mem_filter hxf
    rw [hkey] at hfil
    simp at hfil

/-- In a list whose key column is duplicate-free, filtering by one present
key value selects exactly one row. -/
theorem filter_key_length_of_nodup {α β : Type} [BEq β] [LawfulBEq β] (f : α → β) :
    ∀ (l : List α), ((l.map f).Nodup) → ∀ k, k ∈ l.map f →
      (l.filter fun a => f a == k).length = 1 := by
  intro l
  induction l with
  | nil => intro _ k hk; simp at hk
  | cons a as ih =>
    intro hnd k hk
    simp only [List.map_cons, List.nodup_cons] at hnd
    rcases hnd with ⟨hna, hnd⟩
    by_cases hak : f a = k
    · subst hak
      rw [List.filter_cons]
      have hempty : (as.filter fun b => f b == f a) = [] := by
        rw [List.filter_eq_nil_iff]
        intro b hb hbeq
        exact hna (List.mem_map.mpr ⟨b, hb, eq_of_beq hbeq⟩)
      simp [hempty]
    · have hk' : k ∈ as.map f := by
        rcases List.mem_cons.mp hk with h | h
        · exact absurd h.symm hak
        · exact h
      rw [List.filter_cons]
      have hfa : (f a == k) = false := beq_eq_false_iff_ne.mpr hak
      simp [hfa, ih hnd k hk']

/-- C5: evaluation of the cleaning step of CitibikeDataset.__init__ at the
failing input.  The row-count identity of the claim holds, but dropped_rows
is NOT the set of rows removed by dropna: the mask
~original_df.index.isin(cleaned_df.index) is taken after cleaned_df was
reindexed to 0..k-1, so dropped_rows holds the last n-k input rows.  Here the
row with the missing value (c5RideA) comes first, yet dropped_rows holds the
fully valid last row c5RideC. -/
theorem C5_dropped_rows_mismatch :
    dropped_rows c5Rides = [c5RideC] ∧
    c5Rides.filter hasNull = [c5RideA] ∧
    dropped_rows c5Rides ≠ c5Rides.filter hasNull ∧
    (cleanedRides c5Rides).length + (dropped_rows c5Rides).length = c5Rides.length := by
  refine ⟨rfl, rfl, ?_, rfl⟩
  intro h
  have h1 : dropped_rows c5Rides = [c5RideC] := rfl
  have h2 : c5Rides.filter hasNull = [c5RideA] := rfl
  rw [h1, h2] at h
  have := List.head_eq_of_cons_eq h
  simp [c5RideA, c5RideC] at this

/-- C7: validation behaviour of CitibikeDataset.__init__: a missing path
raises FileNotFoundError; an existing file whose (lower-cased) name does not
end in '.csv' raises ValueError; a directory with no readable CSV raises
ValueError; a loaded table (from a file or from the concatenation of a
directory's CSVs) missing one of the 13 required columns raises ValueError;
and for an existing CSV file containing all 13 required columns construction
completes without raising, yielding the cleaned rides, the dropped_rows
remainder and the stations table. -/
theorem C7_init_validation (transform : ℚ → ℚ → ℚ × ℚ) (path : String) :
    (citibike_init transform path .missing = .error .fileNotFound) ∧
    (∀ contents, endsWithCsvLower path = false →
        citibike_init transform path (.file contents) = .error .valueError) ∧
    (citibike_init transform path (.directory []) = .error .valueError) ∧
    (∀ t, endsWithCsvLower path = true →
        citibikeRequiredColumns.all (fun c => t.cols.contains c) = false →
        citibike_init transform path (.file (some t)) = .error .valueError) ∧
    (∀ t ts, citibikeRequiredColumns.all
          (fun c => (concatTables (t :: ts)).cols.contains c) = false →
        citibike_init transform path (.directory (t :: ts)) = .error .valueError) ∧
    (∀ t, endsWithCsvLower path = true →
        citibikeRequiredColumns.all (fun c => t.cols.contains c) = true →
        citibike_init transform path (.file (some t)) =
          .ok ⟨cleanedRides t.rows, dropped_rows t.rows,
               processStations transform (cleanedRides t.rows)⟩) := by
  refine ⟨rfl, ?_, rfl, ?_, ?_, ?_⟩
  · intro contents hcsv
    simp [citibike_init, hcsv]
  · intro t hcsv hcols
    simp [citibike_init, buildCitibike, hcsv]
    simpa using hcols
  · intro t ts hcols
    simp [citibike_init, buildCitibike]
    simpa using hcols
  · intro t hcsv hcols
    simp [citibike_init, buildCitibike, hcsv]
    simpa using hcols

theorem C7_init_validation_witness :
    citibike_init exampleTransform "rides.csv" (.file (some c7Table)) =
      .ok ⟨cleanedRides c7Table.rows, dropped_rows c7Table.rows,
           processStations exampleTransform (cleanedRides c7Table.rows)⟩ :=
  (C7_init_validation exampleTransform "rides.csv").2.2.2.2.2 c7Table
    (by decide) (by decide)

/-- C10: after _process_stations the station_id values are pairwise distinct,
so the lookup stations[stations['station_id'] == sid] performed by
predict_insurance_price selects exactly one row for every station id present
in the table. -/
theorem C10_station_ids_unique (transform : ℚ → ℚ → ℚ × ℚ) (rides : List RawRide) :
    ((processStations transform rides).map Station.station_id).Nodup ∧
    ∀ sid, sid ∈ (processStations transform rides).map Station.station_id →
      ((processStations transform rides).filter
        fun s => s.station_id == sid).length = 1 := by
  have hids : (processStations transform rides).map Station.station_id
      = (dedupByKey StationRecord.station_id
          (dedupByKey StationRecord.station_id (startStationRecords rides) ++
           dedupByKey StationRecord.station_id (endStationRecords rides))).map
        StationRecord.station_id := by
    unfold processStations
    rw [List.map_map]
    rfl
  have hnd : ((processStations transform rides).map Station.station_id).Nodup := by
    rw [hids]
    exact dedupByKey_keys_nodup _ _
  exact ⟨hnd, fun sid hsid =>
    filter_key_length_of_nodup Station.station_id _ hnd sid hsid⟩

theorem C10_station_ids_unique_witness :
    ((processStations exampleTransform c5Rides).map Station.station_id).Nodup ∧
    ∀ sid, sid ∈ (processStations exampleTransform c5Rides).map Station.station_id →
      ((processStations exampleTransform c5Rides).filter
        fun s => s.station_id == sid).length = 1 :=
  C10_station_ids_unique exampleTransform c5Rides

/-- C6: every row surviving _process_dataset is the decorated image of an
input row that satisfies the bike-crash condition; its essential columns
CRASH DATE, CRASH TIME, LATITUDE and LONGITUDE are non-null; its latitude and
longitude are nonzero; and the output dataframe carries exactly the seven
required columns. -/
theorem C6_process_dataset_filters (transform : ℚ → ℚ → ℚ × ℚ)
    (parseDatetime : String → Option ℚ) (df : List RawCrashRow) :
    (∀ p ∈ processCrashDataset transform parseDatetime df, ∃ r ∈ df,
        p = projectCrashRow transform parseDatetime r ∧
        combined_condition r = true ∧
        p.crash_date.isSome = true ∧ p.crash_time.isSome = true ∧
        (∃ lat, p.latitude = some lat ∧ lat ≠ 0) ∧
        (∃ lng, p.longitude = some lng ∧ lng ≠ 0)) ∧
    processedCrashColumns = bikeCrashRequiredColumns := by
  refine ⟨?_, rfl⟩
  intro p hp
  unfold processCrashDataset at hp
  rcases List.mem_map.mp hp with ⟨r, hr, rfl⟩
  rcases List.mem_filter.mp hr with ⟨hr2, hzero⟩
  rcases List.mem_filter.mp hr2 with ⟨hr3, hess⟩
  rcases List.mem_filter.mp hr3 with ⟨hmem, hcond⟩
  refine ⟨r, hmem, rfl, hcond, ?_⟩
  unfold essentialNotNull at hess
  unfold coordsNonzero at hzero
  simp only [Bool.and_eq_true] at hess hzero
  rcases hess with ⟨⟨⟨hdate, htime⟩, hlat⟩, hlng⟩
  rcases hzero with ⟨hlat0, hlng0⟩
  refine ⟨hdate, htime, ?_, ?_⟩
  · rcases Option.isSome_iff_exists.mp hlat with ⟨lat, hl⟩
    refine ⟨lat, hl, ?_⟩
    intro h0
    rw [h0] at hl
    rw [hl] at hlat0
    simp at hlat0
  · rcases Option.isSome_iff_exists.mp hlng with ⟨lng, hl⟩
    refine ⟨lng, hl, ?_⟩
    intro h0
    rw [h0] at hl
    rw [hl] at hlng0
    simp at hlng0

theorem C6_process_dataset_filters_witness :
    (∀ p ∈ processCrashDataset exampleTransform exampleParseDatetime c6Rows,
        ∃ r ∈ c6Rows,
        p = projectCrashRow exampleTransform exampleParseDatetime r ∧
        combined_condition r = true ∧
        p.crash_date.isSome = true ∧ p.crash_time.isSome = true ∧
        (∃ lat, p.latitude = some lat ∧ lat ≠ 0) ∧
        (∃ lng, p.longitude = some lng ∧ lng ≠ 0)) ∧
    processedCrashColumns = bikeCrashRequiredColumns :=
  C6_process_dataset_filters exampleTransform exampleParseDatetime c6Rows
